import Mathlib

/-!
Verification of the finance multiservice app: the scoring engine
(backend calculate_screening_scores and the simplified scores of the
worker update_stock_data), the persistence operations (stock upsert,
news insert-if-new, retention sweep), the news headline collector, and
the worker cycle loop (fault isolation, ticker universe fallback).

Numeric fields are modelled over ℚ: the Python code compares float
literals (20, 1.5, 0.1, ...) against provider values, and every claim
concerns exact threshold comparisons at points where float rounding is
not in play. Timestamps are modelled as ℚ measured in days.
-/

/-- Fundamentals of one ticker, as read in calculate_screening_scores
and update_stock_data (each field defaulted to 0 when the provider
omits it, matching the pattern info.get with default 0). -/
structure Fundamentals where
  pe_ratio : ℚ
  peg_ratio : ℚ
  price_to_book : ℚ
  roe : ℚ
  debt_to_equity : ℚ
  revenue_growth : ℚ
deriving DecidableEq

/-- GARP accumulator of calculate_screening_scores (backend app.py
lines 44-56) before the final clamp: base from pe and peg, then the
revenue growth bonus. -/
def garp_score_raw (f : Fundamentals) : ℕ :=
  (if 0 < f.pe_ratio ∧ f.pe_ratio < 20 ∧ 0 < f.peg_ratio ∧ f.peg_ratio < 3/2 then 3
   else if 0 < f.pe_ratio ∧ f.pe_ratio < 25 ∧ 0 < f.peg_ratio ∧ f.peg_ratio < 2 then 2
   else if 0 < f.pe_ratio ∧ 0 < f.peg_ratio then 1
   else 0)
  + (if f.revenue_growth > 1/10 then 2
     else if f.revenue_growth > 1/20 then 1
     else 0)

/-- Growth accumulator of calculate_screening_scores (lines 58-70)
before the final clamp. -/
def growth_score_raw (f : Fundamentals) : ℕ :=
  (if f.revenue_growth > 3/20 then 3
   else if f.revenue_growth > 1/10 then 2
   else if f.revenue_growth > 1/20 then 1
   else 0)
  + (if f.roe > 3/20 then 2
     else if f.roe > 1/10 then 1
     else 0)

/-- Value accumulator of calculate_screening_scores (lines 72-84)
before the final clamp. -/
def value_score_raw (f : Fundamentals) : ℕ :=
  (if 0 < f.pe_ratio ∧ f.pe_ratio < 15 then 3
   else if 0 < f.pe_ratio ∧ f.pe_ratio < 20 then 2
   else if 0 < f.pe_ratio ∧ f.pe_ratio < 25 then 1
   else 0)
  + (if 0 < f.price_to_book ∧ f.price_to_book < 3/2 then 2
     else if 0 < f.price_to_book ∧ f.price_to_book < 5/2 then 1
     else 0)

/-- The three scores returned by calculate_screening_scores. -/
structure Scores where
  garp_score : ℕ
  growth_score : ℕ
  value_score : ℕ
deriving DecidableEq

/-- calculate_screening_scores (backend app.py lines 31-95): the three
accumulated scores, each clamped from above with min(score, 5). -/
def calculate_screening_scores (f : Fundamentals) : Scores :=
  { garp_score := min (garp_score_raw f) 5
    growth_score := min (growth_score_raw f) 5
    value_score := min (value_score_raw f) 5 }

/-- Simplified garp score of the worker update_stock_data (worker.py
line 95): min of 5 and max of 0 and (3 when 0 < pe_ratio < 20 else 1). -/
def worker_garp_score (f : Fundamentals) : ℕ :=
  min 5 (max 0 (if 0 < f.pe_ratio ∧ f.pe_ratio < 20 then 3 else 1))

/-- Simplified growth score of the worker update_stock_data (line 96):
min of 5 and max of 0 and (3 when revenueGrowth > 0.1 else 1). -/
def worker_growth_score (f : Fundamentals) : ℕ :=
  min 5 (max 0 (if f.revenue_growth > 1/10 then 3 else 1))

/-- Simplified value score of the worker update_stock_data (line 97):
min of 5 and max of 0 and (3 when 0 < pe_ratio < 15 else 1). -/
def worker_value_score (f : Fundamentals) : ℕ :=
  min 5 (max 0 (if 0 < f.pe_ratio ∧ f.pe_ratio < 15 then 3 else 1))

/-- The GARP formula exactly as claim C1 words it: a base of 3, 2, 1 or
0 from pe and peg, plus a growth bonus of 2, 1 or 0, with no clamp. -/
def garp_claim_formula (f : Fundamentals) : ℕ :=
  (if 0 < f.pe_ratio ∧ f.pe_ratio < 20 ∧ 0 < f.peg_ratio ∧ f.peg_ratio < 3/2 then 3
   else if 0 < f.pe_ratio ∧ f.pe_ratio < 25 ∧ 0 < f.peg_ratio ∧ f.peg_ratio < 2 then 2
   else if 0 < f.pe_ratio ∧ 0 < f.peg_ratio then 1
   else 0)
  + (if f.revenue_growth > 1/10 then 2
     else if f.revenue_growth > 1/20 then 1
     else 0)

/-- Simplified garp score as claim C2 words it: 3 when the primary
threshold of the FULL garp formula holds, else 1. -/
def claim_simple_garp (f : Fundamentals) : ℕ :=
  if 0 < f.pe_ratio ∧ f.pe_ratio < 20 ∧ 0 < f.peg_ratio ∧ f.peg_ratio < 3/2 then 3 else 1

/-- Simplified growth score as claim C2 words it: 3 when the primary
threshold of the FULL growth formula holds, else 1. -/
def claim_simple_growth (f : Fundamentals) : ℕ :=
  if f.revenue_growth > 3/20 then 3 else 1

/-- Simplified value score as claim C2 words it: 3 when the primary
threshold of the FULL value formula holds, else 1. -/
def claim_simple_value (f : Fundamentals) : ℕ :=
  if 0 < f.pe_ratio ∧ f.pe_ratio < 15 then 3 else 1

/-- Fundamentals of the first worked example of the spec: pe 18,
peg 1.2, revenue growth 0.12, other fields 0. -/
def exampleHigh : Fundamentals :=
  { pe_ratio := 18, peg_ratio := 6/5, price_to_book := 0, roe := 0
    debt_to_equity := 0, revenue_growth := 3/25 }

/-- Fundamentals of the second worked example of the spec: pe 30,
peg 0, revenue growth 0.02, other fields 0. -/
def exampleLow : Fundamentals :=
  { pe_ratio := 30, peg_ratio := 0, price_to_book := 0, roe := 0
    debt_to_equity := 0, revenue_growth := 1/50 }

/-- Fundamentals refuting the claim that the simplified worker scores
use the primary thresholds of the full formulas: pe 18, peg 2,
revenue growth 0.12. -/
def exampleMismatch : Fundamentals :=
  { pe_ratio := 18, peg_ratio := 2, price_to_book := 0, roe := 0
    debt_to_equity := 0, revenue_growth := 3/25 }

/-- One row of the stocks table. -/
structure StockRow where
  ticker : String
  company_name : String
  current_price : ℚ
  pe_ratio : ℚ
  market_cap : ℚ
  garp_score : ℕ
  growth_score : ℕ
  value_score : ℕ
  updated_at : ℚ
deriving DecidableEq

/-- The worker stock upsert (worker.py lines 105-128): insert keyed by
ticker; on conflict the DO UPDATE SET clause overwrites company_name,
current_price, pe_ratio, market_cap, the three scores and updated_at,
that is, every non-key field, so the stored row becomes the new row. -/
def workerUpsert (row : StockRow) : List StockRow → List StockRow
  | [] => [row]
  | r :: rs => if r.ticker = row.ticker then row :: rs else r :: workerUpsert row rs

/-- The on-demand screen stock upsert (backend app.py lines 142-164):
insert keyed by ticker; on conflict the DO UPDATE SET clause overwrites
current_price, pe_ratio, market_cap, the three scores and updated_at,
but NOT company_name, which keeps its stored value. -/
def backendUpsert (row : StockRow) : List StockRow → List StockRow
  | [] => [row]
  | r :: rs =>
    if r.ticker = row.ticker then { row with company_name := r.company_name } :: rs
    else r :: backendUpsert row rs

/-- Lookup of the row of a ticker in the stocks table. -/
def findStock (t : String) : List StockRow → Option StockRow
  | [] => none
  | r :: rs => if r.ticker = t then some r else findStock t rs

/-- A stored stock row used in concrete instances. -/
def oldAppleRow : StockRow :=
  { ticker := "AAPL", company_name := "Apple Old", current_price := 1, pe_ratio := 1
    market_cap := 1, garp_score := 1, growth_score := 1, value_score := 1, updated_at := 1 }

/-- A fresh snapshot for the same ticker with every field changed. -/
def newAppleRow : StockRow :=
  { ticker := "AAPL", company_name := "Apple New", current_price := 2, pe_ratio := 2
    market_cap := 2, garp_score := 2, growth_score := 2, value_score := 2, updated_at := 2 }

/-- One row of the news table (the synthetic id column is dropped: no
modelled operation reads it). -/
structure NewsRow where
  ticker : String
  headline : String
  sentiment_score : ℚ
  published_at : ℚ
deriving DecidableEq

/-- The duplicate check of update_news_sentiment (worker.py lines
157-159): a stored row matches when its ticker and headline equal the
candidate pair. -/
def newsMatch (t h : String) (x : NewsRow) : Bool :=
  x.ticker == t && x.headline == h

/-- The insert-if-new news operation of update_news_sentiment (worker.py
lines 155-173): when a row with the same (ticker, headline) exists the
item is skipped, otherwise it is inserted. -/
def insert_news_if_new (r : NewsRow) (news : List NewsRow) : List NewsRow :=
  if news.any (newsMatch r.ticker r.headline) then news else news ++ [r]

/-- Number of stored news rows with the given (ticker, headline). -/
def newsCount (t h : String) (news : List NewsRow) : ℕ :=
  (news.filter (newsMatch t h)).length

/-- A news row used to exercise the dedup at concrete inputs. -/
def dupNews : NewsRow :=
  { ticker := "AAPL", headline := "sample headline", sentiment_score := 0, published_at := 0 }

/-- The relational store: the stocks table and the news table. -/
structure Store where
  stocks : List StockRow
  news : List NewsRow
deriving DecidableEq

/-- The retention sweep cleanup_old_data (worker.py lines 185-202): it
reads the clock when it runs (the now argument, in days), computes the
cutoff now - 30 and deletes exactly the news rows with published_at
strictly before the cutoff; the stocks table is not touched. -/
def cleanup_old_data (now : ℚ) (s : Store) : Store :=
  { s with news := s.news.filter fun x => decide (¬ (x.published_at < now - 30)) }

/-- A news row dated 31 days before a sweep at time 100. -/
def expiredNews : NewsRow :=
  { ticker := "AAPL", headline := "thirty one days old", sentiment_score := 0
    published_at := 69 }

/-- A news row dated 29 days before a sweep at time 100. -/
def recentNews : NewsRow :=
  { ticker := "AAPL", headline := "twenty nine days old", sentiment_score := 0
    published_at := 71 }

/-- A store holding one stock row and the two boundary news rows. -/
def retentionStore : Store := { stocks := [oldAppleRow], news := [expiredNews, recentNews] }

/-- One collected headline of fetch_news_sentiment: the text, its
polarity, and the collection timestamp. -/
structure Headline where
  headline : String
  sentiment_score : ℚ
  published_at : ℚ
deriving DecidableEq

/-- The headline filtering and scoring loop of fetch_news_sentiment
(worker.py lines 56-67): for each candidate string, keep it when it is
truthy (non-empty) and its length is strictly greater than 10, score it
with the polarity collaborator and stamp it with the current time. -/
def collect_headlines (polarity : String → ℚ) (now : ℚ) (items : List String) :
    List Headline :=
  items.filterMap fun h =>
    if h ≠ "" ∧ 10 < h.length then
      some { headline := h, sentiment_score := polarity h, published_at := now }
    else none

/-- A candidate headline of exactly 10 characters. -/
def tenCharHeadline : String := "ABCDEFGHIJ"

/-- update_stock_data (worker.py lines 75-138) as seen from the cycle
loop: its whole body is inside its own try block, so a raised fetch or
persist failure is caught and surfaces as the return value False. -/
def update_stock_data_result (fetchStock persistStock : String → Except String Unit)
    (t : String) : Bool :=
  match fetchStock t with
  | .error _ => false
  | .ok _ =>
    match persistStock t with
    | .error _ => false
    | .ok _ => true

/-- update_news_sentiment (worker.py lines 140-183) as seen from the
cycle loop: its whole body is inside its own try block, so a raised
collect or persist failure is caught and surfaces as False. -/
def update_news_sentiment_result (fetchNews persistNews : String → Except String Unit)
    (t : String) : Bool :=
  match fetchNews t with
  | .error _ => false
  | .ok _ =>
    match persistNews t with
    | .error _ => false
    | .ok _ => true

/-- The per-ticker loop of worker_job (worker.py lines 234-249): every
ticker of the working set is processed in order, recording for each one
whether its stock update and its news update succeeded; the loop moves
to the next ticker whatever the two outcomes were. -/
def worker_job_loop (fs ps fn pn : String → Except String Unit) :
    List String → List (String × Bool × Bool)
  | [] => []
  | t :: ts =>
    (t, update_stock_data_result fs ps t, update_news_sentiment_result fn pn t) ::
      worker_job_loop fs ps fn pn ts

/-- The fixed default ticker list of worker.py lines 21-25. -/
def DEFAULT_TICKERS : List String :=
  ["AAPL", "MSFT", "GOOGL", "AMZN", "TSLA", "META", "NVDA", "NFLX",
   "ADBE", "CRM", "ORCL", "IBM", "INTC", "AMD", "UBER", "LYFT",
   "SPY", "QQQ", "IWM", "GLD", "SLV", "TLT", "VTI", "VXUS"]

/-- The working ticker set computed at the start of worker_job
(worker.py lines 214-230). The argument models the store: none when no
connection is obtained, some error when the distinct-tickers query
raises, some ok with the distinct tickers of the stocks table when it
succeeds; in the last case the code takes list(set(default + db)),
modelled as deduplication of the concatenation. -/
def worker_job_tickers (dbTickers : Option (Except String (List String))) : List String :=
  match dbTickers with
  | none => DEFAULT_TICKERS
  | some (.error _) => DEFAULT_TICKERS
  | some (.ok db) => (DEFAULT_TICKERS ++ db).dedup

/-- A number at most 5 lies in the score range. -/
theorem mem_score_range {n : ℕ} (h : n ≤ 5) : n ∈ ({0,1,2,3,4,5} : Finset ℕ) := by
  simp only [Finset.mem_insert, Finset.mem_singleton]
  omega

/-- A row matches its own (ticker, headline) pair. -/
theorem newsMatch_self (r : NewsRow) : newsMatch r.ticker r.headline r = true := by
  simp [newsMatch]

/-- Claim C1: for every fundamentals input the full on-demand GARP score
equals the stated base-plus-bonus formula (the clamp never binds), and
the two worked examples give 5 and 0. -/
theorem garp_full_formula :
    (∀ f : Fundamentals,
      (calculate_screening_scores f).garp_score = garp_claim_formula f) ∧
    (calculate_screening_scores exampleHigh).garp_score = 5 ∧
    (calculate_screening_scores exampleLow).garp_score = 0 := by
  refine ⟨fun f => ?_, ?_, ?_⟩
  · simp only [calculate_screening_scores, garp_score_raw, garp_claim_formula]
    split_ifs <;> rfl
  · simp only [calculate_screening_scores, garp_score_raw, exampleHigh]
    norm_num
  · simp only [calculate_screening_scores, garp_score_raw, exampleLow]
    norm_num

/-- Claim C2, counterexample: at pe 18, peg 2, revenue growth 0.12 the
worker simplified garp score is 3 while the claimed formula (3 only when
the primary threshold of the full garp formula holds) gives 1, since
peg 2 fails peg < 1.5. -/
theorem worker_simple_scores_cex :
    ¬ (worker_garp_score exampleMismatch = claim_simple_garp exampleMismatch ∧
       worker_growth_score exampleMismatch = claim_simple_growth exampleMismatch ∧
       worker_value_score exampleMismatch = claim_simple_value exampleMismatch) := by
  intro h
  have h1 := h.1
  simp only [worker_garp_score, claim_simple_garp, exampleMismatch] at h1
  norm_num at h1

/-- Claim C2, amended: each worker simplified score is 3 when the worker
own single-factor threshold holds and 1 otherwise; for garp the
threshold is 0 < pe < 20 alone (no PEG condition), for growth it is
revenue growth > 0.10 (not 0.15), and for value it is 0 < pe < 15,
which coincides with the primary threshold of the full value formula. -/
theorem worker_simple_scores_formula :
    ∀ f : Fundamentals,
      worker_garp_score f = (if 0 < f.pe_ratio ∧ f.pe_ratio < 20 then 3 else 1) ∧
      worker_growth_score f = (if f.revenue_growth > 1/10 then 3 else 1) ∧
      worker_value_score f = claim_simple_value f := by
  intro f
  unfold worker_garp_score worker_growth_score worker_value_score claim_simple_value
  refine ⟨?_, ?_, ?_⟩ <;> split_ifs <;> rfl

/-- Claim C3: for every fundamentals input each of the three full scores
and each of the three worker simplified scores lies in {0,1,2,3,4,5}. -/
theorem scores_within_range :
    ∀ f : Fundamentals,
      (calculate_screening_scores f).garp_score ∈ ({0,1,2,3,4,5} : Finset ℕ) ∧
      (calculate_screening_scores f).growth_score ∈ ({0,1,2,3,4,5} : Finset ℕ) ∧
      (calculate_screening_scores f).value_score ∈ ({0,1,2,3,4,5} : Finset ℕ) ∧
      worker_garp_score f ∈ ({0,1,2,3,4,5} : Finset ℕ) ∧
      worker_growth_score f ∈ ({0,1,2,3,4,5} : Finset ℕ) ∧
      worker_value_score f ∈ ({0,1,2,3,4,5} : Finset ℕ) := by
  intro f
  exact ⟨mem_score_range (Nat.min_le_right _ 5), mem_score_range (Nat.min_le_right _ 5),
    mem_score_range (Nat.min_le_right _ 5), mem_score_range (Nat.min_le_left 5 _),
    mem_score_range (Nat.min_le_left 5 _), mem_score_range (Nat.min_le_left 5 _)⟩

/-- Claim C4, counterexample: upserting a fresh snapshot for an existing
ticker through the on-demand screen does not leave the stored row equal
to the snapshot, because company_name is not overwritten. -/
theorem backend_upsert_cex : ¬ (backendUpsert newAppleRow [oldAppleRow] = [newAppleRow]) := by
  decide

/-- Claim C4, amended: on an upsert for a ticker already stored, the
worker upsert overwrites every field, so the stored row becomes the new
snapshot; the on-demand screen upsert overwrites every field except
company_name, which keeps the previously stored value. -/
theorem upsert_overwrites_fields (r old : StockRow) (s : List StockRow)
    (h : findStock r.ticker s = some old) :
    findStock r.ticker (workerUpsert r s) = some r ∧
    findStock r.ticker (backendUpsert r s) =
      some { r with company_name := old.company_name } := by
  induction s with
  | nil => simp [findStock] at h
  | cons a as ih =>
    by_cases ha : a.ticker = r.ticker
    · simp only [findStock, if_pos ha] at h
      obtain rfl : a = old := Option.some.inj h
      refine ⟨?_, ?_⟩
      · simp [workerUpsert, findStock, ha]
      · simp [backendUpsert, findStock, ha]
    · simp only [findStock, if_neg ha] at h
      have ih2 := ih h
      refine ⟨?_, ?_⟩
      · simpa [workerUpsert, findStock, ha] using ih2.1
      · simpa [backendUpsert, findStock, ha] using ih2.2

/-- Claim C4, witness: the amended theorem at the concrete store holding
the old row for the ticker of the new snapshot. -/
theorem upsert_overwrites_fields_witness :
    findStock newAppleRow.ticker (workerUpsert newAppleRow [oldAppleRow]) = some newAppleRow ∧
    findStock newAppleRow.ticker (backendUpsert newAppleRow [oldAppleRow]) =
      some { newAppleRow with company_name := oldAppleRow.company_name } :=
  upsert_overwrites_fields newAppleRow oldAppleRow [oldAppleRow] (by decide)

/-- Claim C5, counterexample: from a store state already holding two
rows with the same (ticker, headline) pair, inserting that pair twice
via insert-if-new leaves two matching rows, not exactly one. -/
theorem insert_news_twice_cex :
    ¬ (newsCount dupNews.ticker dupNews.headline
        (insert_news_if_new dupNews (insert_news_if_new dupNews [dupNews, dupNews])) = 1) := by
  decide

/-- From every store state the second insertion of a (ticker, headline)
pair is a no-op: after the first insertion a matching row is present,
whether it was already stored or was just appended. -/
theorem insert_news_if_new_second_noop (r : NewsRow) (news : List NewsRow) :
    insert_news_if_new r (insert_news_if_new r news) = insert_news_if_new r news := by
  by_cases hany : news.any (newsMatch r.ticker r.headline) = true
  · simp [insert_news_if_new, hany]
  · have hany2 : (news ++ [r]).any (newsMatch r.ticker r.headline) = true := by
      rw [List.any_append]
      simp [newsMatch_self]
    simp [insert_news_if_new, hany, hany2]

/-- Claim C5, amended: from every store state the second insertion is a
no-op on the news table; and from any store state holding at most one
news row with the given (ticker, headline) — in particular any state
the sequential worker itself produces — inserting the pair twice leaves
exactly one such row. -/
theorem insert_news_if_new_dedup :
    (∀ (r : NewsRow) (news : List NewsRow),
      insert_news_if_new r (insert_news_if_new r news) = insert_news_if_new r news) ∧
    (∀ (r : NewsRow) (news : List NewsRow),
      newsCount r.ticker r.headline news ≤ 1 →
      newsCount r.ticker r.headline
        (insert_news_if_new r (insert_news_if_new r news)) = 1) := by
  refine ⟨insert_news_if_new_second_noop, fun r news h => ?_⟩
  rw [insert_news_if_new_second_noop]
  by_cases hany : news.any (newsMatch r.ticker r.headline) = true
  · have h1 : insert_news_if_new r news = news := by simp [insert_news_if_new, hany]
    have hpos : newsCount r.ticker r.headline news ≠ 0 := by
      obtain ⟨x, hx, hpx⟩ := List.any_eq_true.mp hany
      have hmem : x ∈ news.filter (newsMatch r.ticker r.headline) :=
        List.mem_filter.mpr ⟨hx, hpx⟩
      unfold newsCount
      intro hlen
      rw [List.length_eq_zero] at hlen
      rw [hlen] at hmem
      exact List.not_mem_nil x hmem
    rw [h1]
    omega
  · have hzero : newsCount r.ticker r.headline news = 0 := by
      unfold newsCount
      rw [List.length_eq_zero, List.filter_eq_nil_iff]
      intro a ha hpa
      exact hany (List.any_eq_true.mpr ⟨a, ha, hpa⟩)
    have h1 : insert_news_if_new r news = news ++ [r] := by
      simp [insert_news_if_new, hany]
    have hr : ([r].filter (newsMatch r.ticker r.headline)).length = 1 := by
      simp [List.filter, newsMatch_self]
    rw [h1]
    unfold newsCount at hzero ⊢
    rw [List.filter_append, List.length_append, hzero, hr]

/-- Claim C5, witness: the exactly-one conjunct at the empty store, and
the unconditional no-op conjunct at a store already holding the pair
twice, the state beyond the reach of the exactly-one part. -/
theorem insert_news_if_new_dedup_witness :
    insert_news_if_new dupNews (insert_news_if_new dupNews [dupNews, dupNews]) =
      insert_news_if_new dupNews [dupNews, dupNews] ∧
    newsCount dupNews.ticker dupNews.headline
      (insert_news_if_new dupNews (insert_news_if_new dupNews [])) = 1 :=
  ⟨insert_news_if_new_dedup.1 dupNews [dupNews, dupNews],
   insert_news_if_new_dedup.2 dupNews [] (by decide)⟩

/-- Claim C6: the retention sweep leaves the stocks table unchanged,
retains exactly the news rows whose published_at is not strictly before
the cutoff of sweep time minus 30 days, and on the concrete boundary
store at sweep time 100 deletes the row dated 69 (31 days old) while
keeping the row dated 71 (29 days old) and the stock row. -/
theorem cleanup_retention :
    (∀ now s, (cleanup_old_data now s).stocks = s.stocks) ∧
    (∀ now s x, x ∈ (cleanup_old_data now s).news ↔
        x ∈ s.news ∧ ¬ (x.published_at < now - 30)) ∧
    (cleanup_old_data 100 retentionStore).news = [recentNews] ∧
    (cleanup_old_data 100 retentionStore).stocks = [oldAppleRow] := by
  refine ⟨fun now s => rfl, fun now s x => ?_, ?_, rfl⟩
  · simp [cleanup_old_data, List.mem_filter]
  · simp only [cleanup_old_data, retentionStore, expiredNews, recentNews, List.filter]
    norm_num

/-- Claim C7, counterexample: a non-empty candidate headline of exactly
10 characters satisfies the claimed keep condition (non-empty and length
at least 10) but the collector discards it. -/
theorem collect_headlines_cex :
    collect_headlines (fun _ => 0) 0 [tenCharHeadline] = [] ∧
    tenCharHeadline ≠ "" ∧ 10 ≤ tenCharHeadline.length := by
  refine ⟨by decide, by decide, by decide⟩

/-- Claim C7, amended: the collector discards exactly the candidate
headlines of length at most 10: the kept items are, in order, the
candidates of length strictly greater than 10, each scored with the
polarity collaborator and stamped with the collection time. -/
theorem collect_headlines_formula :
    ∀ (polarity : String → ℚ) (now : ℚ) (items : List String),
      collect_headlines polarity now items =
        (items.filter fun h => decide (10 < h.length)).map
          fun h => { headline := h, sentiment_score := polarity h, published_at := now } := by
  intro polarity now items
  induction items with
  | nil => rfl
  | cons a as ih =>
    by_cases hl : 10 < a.length
    · have ha : a ≠ "" := by
        intro he
        rw [he] at hl
        exact absurd hl (by decide)
      simp only [collect_headlines, List.filterMap_cons, List.filter_cons] at *
      simp [hl, ha, ih]
    · simp only [collect_headlines, List.filterMap_cons, List.filter_cons] at *
      simp [hl, ih]

/-- Claim C8: the per-ticker loop attempts every ticker of the working
set in order, and the recorded outcome of each ticker is a function of
that ticker alone, so a fetch, scoring or persistence failure at an
earlier ticker never prevents a later ticker from being attempted. -/
theorem worker_loop_fault_isolation :
    ∀ (fs ps fn pn : String → Except String Unit) (ts : List String),
      (worker_job_loop fs ps fn pn ts).map Prod.fst = ts ∧
      worker_job_loop fs ps fn pn ts =
        ts.map fun t =>
          (t, update_stock_data_result fs ps t, update_news_sentiment_result fn pn t) := by
  intro fs ps fn pn ts
  induction ts with
  | nil => exact ⟨rfl, rfl⟩
  | cons t ts ih =>
    exact ⟨by simp [worker_job_loop, ih.1], by simp [worker_job_loop, ih.2]⟩

/-- Claim C9: when no store connection is obtained, or the
distinct-tickers query fails, the working ticker set is exactly the
default list; when the query succeeds the working set holds exactly the
union of the default list and the distinct stored tickers. -/
theorem worker_tickers_fallback :
    (worker_job_tickers none = DEFAULT_TICKERS) ∧
    (∀ e, worker_job_tickers (some (Except.error e)) = DEFAULT_TICKERS) ∧
    (∀ db x, x ∈ worker_job_tickers (some (Except.ok db)) ↔
        x ∈ DEFAULT_TICKERS ∨ x ∈ db) := by
  refine ⟨rfl, fun e => rfl, fun db x => ?_⟩
  simp [worker_job_tickers, List.mem_dedup]

/-- Claim C10: for every fundamentals input each worker simplified score
is exactly 1 or 3, never 0, 2, 4 or 5. -/
theorem worker_scores_one_or_three :
    ∀ f : Fundamentals,
      (worker_garp_score f = 1 ∨ worker_garp_score f = 3) ∧
      (worker_growth_score f = 1 ∨ worker_growth_score f = 3) ∧
      (worker_value_score f = 1 ∨ worker_value_score f = 3) := by
  intro f
  unfold worker_garp_score worker_growth_score worker_value_score
  refine ⟨?_, ?_, ?_⟩ <;> split_ifs <;> simp
